import Mathlib

/-!
Verification of the Spout2 texture-sharing engine interface (SpoutGL.h).

The only implementation code available is the inline `memoryshare` struct in
SpoutGL.h (OpenSenderMemory, CloseSenderMemory, LockSenderMemory,
UnlockSenderMemory); those are embedded directly. CopyTexture and
RemovePadding are declared in the header but their bodies live elsewhere in
the repository, so they are modelled from the specification, as marked on
each definition.
-/

namespace Spout

/-- A texture: width, height, and pixel rows (each row a list of bytes). -/
structure GLTexture where
  width : Nat
  height : Nat
  rows : List (List Nat)
deriving DecidableEq

/-- Modelled from the spec: the body of spoutGL::CopyTexture is not under
src/ (only its declaration in SpoutGL.h, with the documented precondition
that the textures must be the same size). Per the spec, the copy transfers
the source rows to the destination unscaled, reversing row order when
bInvert is true, and fails (returns false, modelled as none) when source or
destination does not match the requested width and height. -/
def CopyTexture (source dest : GLTexture) (width height : Nat) (bInvert : Bool) :
    Option GLTexture :=
  if source.width = width ∧ source.height = height ∧
     dest.width = width ∧ dest.height = height then
    some { dest with rows := if bInvert then source.rows.reverse else source.rows }
  else
    none

/-- Modelled from the spec: the body of spoutGL::RemovePadding is not under
src/ (only its declaration in SpoutGL.h, "Correct for image stride"). Per
the spec, each of the height rows contributes its first width * bpp bytes
(bpp derived from the glFormat argument of the declaration), taken at
successive stride offsets of the source, packed contiguously into the
destination. -/
def RemovePadding : List Nat → Nat → Nat → Nat → Nat → List Nat
  | _, _, 0, _, _ => []
  | source, width, Nat.succ h, stride, bpp =>
      source.take (width * bpp) ++ RemovePadding (source.drop stride) width h stride bpp

/-- The SpoutSharedMemory object held by the memoryshare struct: an
allocation identity plus the name of the currently open map, if any. -/
structure SpoutSharedMemory where
  objId : Nat
  mapName : Option String
deriving DecidableEq

/-- Embeds the C++ constructor call in OpenSenderMemory: a fresh object with
no map open; fresh is the allocation identity. -/
def newSharedMemory (fresh : Nat) : SpoutSharedMemory :=
  { objId := fresh, mapName := none }

/-- Environment for the memoryshare operations: which named shared memory
maps exist (can be opened), and what the underlying Lock call returns for a
given object (none models a null buffer pointer). -/
structure MemEnv where
  maps : String → Bool
  lockBuf : Nat → Option Nat

/-- Modelled from the spec: SpoutSharedMemory::Open is not under src/. Per
the spec, openNamed(name) succeeds exactly when the named map exists and
fails with NotFound otherwise, leaving no map open on failure. -/
def SpoutSharedMemory.Open (env : MemEnv) (m : SpoutSharedMemory) (name : String) :
    Bool × SpoutSharedMemory :=
  if env.maps name then (true, { m with mapName := some name })
  else (false, { m with mapName := none })

/-- Observable calls the memoryshare struct makes on its collaborators. -/
inductive MemEvent where
  | openMap : String → MemEvent
  | lockCall : MemEvent
  | unlockCall : MemEvent
  | closeCall : MemEvent
deriving DecidableEq

/-- State of the anonymous memoryshare struct in spoutGL (SpoutGL.h):
the SpoutSharedMemory pointer and the cached width and height. -/
structure Memoryshare where
  senderMem : Option SpoutSharedMemory
  m_Width : Nat
  m_Height : Nat
deriving DecidableEq

/-- Embedding of memoryshare::OpenSenderMemory (SpoutGL.h): appends the
suffix to the sender name, allocates a SpoutSharedMemory object only when
the field is null, then opens the map, returning the success flag, the new
state, and the trace of calls issued. -/
def OpenSenderMemory (env : MemEnv) (fresh : Nat) (s : Memoryshare) (sendername : String) :
    Bool × Memoryshare × List MemEvent :=
  let namestring := sendername ++ "_map"
  let mem := match s.senderMem with
    | some m => m
    | none => newSharedMemory fresh
  let r := SpoutSharedMemory.Open env mem namestring
  (r.fst, { s with senderMem := some r.snd }, [MemEvent.openMap namestring])

/-- Embedding of memoryshare::CloseSenderMemory (SpoutGL.h): calls Close on
the underlying object only when non-null, then unconditionally clears the
pointer and zeroes the cached width and height. -/
def CloseSenderMemory (s : Memoryshare) : Memoryshare × List MemEvent :=
  ({ senderMem := none, m_Width := 0, m_Height := 0 },
   match s.senderMem with
   | some _ => [MemEvent.closeCall]
   | none => [])

/-- Embedding of memoryshare::LockSenderMemory (SpoutGL.h): returns null if
no object is held; otherwise calls Lock and returns its buffer, or null if
Lock returned null (without calling Unlock, per the commented-out line). The
struct state is returned unchanged; the trace records the calls issued. -/
def LockSenderMemory (env : MemEnv) (s : Memoryshare) :
    Option Nat × Memoryshare × List MemEvent :=
  match s.senderMem with
  | none => (none, s, [])
  | some m =>
    match env.lockBuf m.objId with
    | none => (none, s, [MemEvent.lockCall])
    | some pBuf => (some pBuf, s, [MemEvent.lockCall])

/-- Embedding of memoryshare::UnlockSenderMemory (SpoutGL.h): does nothing
when no object is held, otherwise calls Unlock on it. -/
def UnlockSenderMemory (s : Memoryshare) : Memoryshare × List MemEvent :=
  match s.senderMem with
  | none => (s, [])
  | some _ => (s, [MemEvent.unlockCall])

/-- Length of the packed output: height rows of width * bpp bytes each, when
the source holds height rows of stride bytes and stride covers a row. -/
theorem removePadding_length (width stride bpp : Nat) (hbw : width * bpp ≤ stride) :
    ∀ (height : Nat) (source : List Nat), height * stride ≤ source.length →
      (RemovePadding source width height stride bpp).length = height * (width * bpp) := by
  intro height
  induction height with
  | zero => intro source _; simp [RemovePadding]
  | succ h ih =>
    intro source hlen
    rw [Nat.succ_mul] at hlen
    have hbs : width * bpp ≤ source.length := by omega
    have hrec := ih (source.drop stride) (by rw [List.length_drop]; omega)
    simp only [RemovePadding, List.length_append, List.length_take, hrec]
    rw [Nat.min_eq_left hbs, Nat.succ_mul]
    omega

/-- Row y of the packed output equals the first width * bpp bytes of row y
of the strided source. -/
theorem removePadding_row (width stride bpp : Nat) (hbw : width * bpp ≤ stride) :
    ∀ (height : Nat) (source : List Nat) (y : Nat), y < height →
      height * stride ≤ source.length →
      ((RemovePadding source width height stride bpp).drop (y * (width * bpp))).take (width * bpp)
        = (source.drop (y * stride)).take (width * bpp) := by
  intro height
  induction height with
  | zero => intro source y hy _; exact absurd hy (Nat.not_lt_zero y)
  | succ h ih =>
    intro source y hy hlen
    rw [Nat.succ_mul] at hlen
    have hbs : width * bpp ≤ source.length := by omega
    have htk : (source.take (width * bpp)).length = width * bpp := by
      rw [List.length_take, Nat.min_eq_left hbs]
    cases y with
    | zero =>
      simp only [RemovePadding, Nat.zero_mul, List.drop_zero]
      rw [List.take_left' htk]
    | succ y2 =>
      simp only [RemovePadding]
      have e1 : Nat.succ y2 * (width * bpp) = width * bpp + y2 * (width * bpp) := by
        rw [Nat.succ_mul]; omega
      rw [e1, ← List.drop_drop, List.drop_left' htk]
      have e2 : Nat.succ y2 * stride = stride + y2 * stride := by
        rw [Nat.succ_mul]; omega
      rw [e2, ← List.drop_drop]
      exact ih (source.drop stride) y2 (Nat.lt_of_succ_lt_succ hy)
        (by rw [List.length_drop]; omega)

/-- When the stride is exactly width * bpp the copy is the identity on the
source bytes. -/
theorem removePadding_id (width stride bpp : Nat) (hsb : stride = width * bpp) :
    ∀ (height : Nat) (source : List Nat), source.length = height * stride →
      RemovePadding source width height stride bpp = source := by
  intro height
  induction height with
  | zero =>
    intro source h
    rw [Nat.zero_mul] at h
    simp only [RemovePadding]
    exact (List.length_eq_zero.mp h).symm
  | succ h ih =>
    intro source hlen
    rw [Nat.succ_mul] at hlen
    have hdl : (source.drop stride).length = h * stride := by
      rw [List.length_drop]; omega
    simp only [RemovePadding]
    rw [ih (source.drop stride) hdl, ← hsb, List.take_append_drop]

/-- Claim C1: copying a frame with invert twice reproduces the original row
order; double inversion is the identity on pixel data. -/
theorem C1_double_invert (source dest1 dest2 : GLTexture) (width height : Nat)
    (hs1 : source.width = width) (hs2 : source.height = height)
    (hd1 : dest1.width = width) (hd2 : dest1.height = height)
    (he1 : dest2.width = width) (he2 : dest2.height = height) :
    ∃ d1 d2, CopyTexture source dest1 width height true = some d1 ∧
      CopyTexture d1 dest2 width height true = some d2 ∧
      d2.rows = source.rows := by
  refine ⟨{ dest1 with rows := source.rows.reverse },
          { dest2 with rows := source.rows }, ?_, ?_, rfl⟩
  · simp only [CopyTexture]
    rw [if_pos ⟨hs1, hs2, hd1, hd2⟩]
    simp
  · simp only [CopyTexture]
    rw [if_pos ⟨hd1, hd2, he1, he2⟩]
    simp

/-- Witness for C1 at a concrete 2 x 2 frame. -/
theorem C1_witness :
    ∃ d1 d2, CopyTexture ⟨2, 2, [[1, 2], [3, 4]]⟩ ⟨2, 2, [[0, 0], [0, 0]]⟩ 2 2 true = some d1 ∧
      CopyTexture d1 ⟨2, 2, [[5, 5], [5, 5]]⟩ 2 2 true = some d2 ∧
      d2.rows = (⟨2, 2, [[1, 2], [3, 4]]⟩ : GLTexture).rows :=
  C1_double_invert ⟨2, 2, [[1, 2], [3, 4]]⟩ ⟨2, 2, [[0, 0], [0, 0]]⟩
    ⟨2, 2, [[5, 5], [5, 5]]⟩ 2 2 rfl rfl rfl rfl rfl rfl

/-- Claim C2: a copy succeeds exactly when source and destination both have
the requested width and height; it then transfers the pixel rows unscaled
(identically, or in reversed row order under invert), and fails rather than
scaling when the sizes do not match. -/
theorem C2_no_scaling (source dest : GLTexture) (width height : Nat) (bInvert : Bool) :
    (source.width = width → source.height = height →
      dest.width = width → dest.height = height →
      CopyTexture source dest width height bInvert
        = some { dest with rows := if bInvert then source.rows.reverse else source.rows }) ∧
    (¬(source.width = width ∧ source.height = height ∧
        dest.width = width ∧ dest.height = height) →
      CopyTexture source dest width height bInvert = none) := by
  constructor
  · intro h1 h2 h3 h4
    simp only [CopyTexture]
    rw [if_pos ⟨h1, h2, h3, h4⟩]
  · intro hne
    simp only [CopyTexture]
    rw [if_neg hne]

/-- Witness for C2 at a concrete 1 x 2 frame with matching sizes. -/
theorem C2_witness :
    CopyTexture ⟨1, 2, [[7], [8]]⟩ ⟨1, 2, [[0], [0]]⟩ 1 2 false = some ⟨1, 2, [[7], [8]]⟩ := by
  have h := (C2_no_scaling ⟨1, 2, [[7], [8]]⟩ ⟨1, 2, [[0], [0]]⟩ 1 2 false).1 rfl rfl rfl rfl
  simpa using h

/-- Claim C3: when the source row pitch is at least width * bytesPerPixel,
RemovePadding packs the destination at exactly width * bytesPerPixel per
row, each destination row being the leading width * bytesPerPixel bytes of
the corresponding strided source row; when the pitch equals
width * bytesPerPixel the data is copied unchanged. -/
theorem C3_stride_correction (source : List Nat) (width height stride bpp : Nat)
    (hbw : width * bpp ≤ stride) (hlen : height * stride ≤ source.length) :
    (∀ y, y < height →
      ((RemovePadding source width height stride bpp).drop (y * (width * bpp))).take (width * bpp)
        = (source.drop (y * stride)).take (width * bpp)) ∧
    (RemovePadding source width height stride bpp).length = height * (width * bpp) ∧
    (stride = width * bpp → source.length = height * stride →
      RemovePadding source width height stride bpp = source) :=
  ⟨fun y hy => removePadding_row width stride bpp hbw height source y hy hlen,
   removePadding_length width stride bpp hbw height source hlen,
   fun h1 h2 => removePadding_id width stride bpp h1 height source h2⟩

/-- Witness for C3: a 2 x 2 image with stride 3 and 1 byte per pixel; row 1
of the packed output equals the leading bytes of strided row 1. -/
theorem C3_witness :
    ((RemovePadding [1, 2, 9, 3, 4, 8] 2 2 3 1).drop (1 * (2 * 1))).take (2 * 1)
      = (([1, 2, 9, 3, 4, 8] : List Nat).drop (1 * 3)).take (2 * 1) :=
  (C3_stride_correction [1, 2, 9, 3, 4, 8] 2 2 3 1 (by decide) (by decide)).1 1 (by decide)

/-- Claim C4: CloseSenderMemory is idempotent and safe from any state,
including never-opened; it always leaves senderMem null and the width and
height zero, and a second close leaves the state of the first unchanged. -/
theorem C4_close_idempotent (s : Memoryshare) :
    (CloseSenderMemory s).fst = { senderMem := none, m_Width := 0, m_Height := 0 } ∧
    (CloseSenderMemory (CloseSenderMemory s).fst).fst = (CloseSenderMemory s).fst ∧
    (s.senderMem = none → (CloseSenderMemory s).snd = []) := by
  refine ⟨rfl, rfl, ?_⟩
  intro h
  simp [CloseSenderMemory, h]

/-- Witness for C4 from the never-opened state. -/
theorem C4_witness :
    (CloseSenderMemory ⟨none, 0, 0⟩).fst
      = { senderMem := none, m_Width := 0, m_Height := 0 } ∧
    (CloseSenderMemory ⟨none, 0, 0⟩).snd = [] :=
  ⟨(C4_close_idempotent ⟨none, 0, 0⟩).1, (C4_close_idempotent ⟨none, 0, 0⟩).2.2 rfl⟩

/-- Claim C5: OpenSenderMemory succeeds, leaving the map open under the
derived name, exactly when the named map exists; when it is absent the call
returns false and the retained object holds no open map. -/
theorem C5_open_named (env : MemEnv) (fresh : Nat) (s : Memoryshare) (sendername : String) :
    (env.maps (sendername ++ "_map") = true →
      (OpenSenderMemory env fresh s sendername).fst = true ∧
      ∃ m, (OpenSenderMemory env fresh s sendername).snd.fst.senderMem = some m ∧
        m.mapName = some (sendername ++ "_map")) ∧
    (env.maps (sendername ++ "_map") = false →
      (OpenSenderMemory env fresh s sendername).fst = false ∧
      ∃ m, (OpenSenderMemory env fresh s sendername).snd.fst.senderMem = some m ∧
        m.mapName = none) := by
  constructor
  · intro h
    cases hs : s.senderMem <;>
      simp [OpenSenderMemory, SpoutSharedMemory.Open, h, hs, newSharedMemory]
  · intro h
    cases hs : s.senderMem <;>
      simp [OpenSenderMemory, SpoutSharedMemory.Open, h, hs, newSharedMemory]

/-- Witness for C5: opening against an environment where every map exists. -/
theorem C5_witness :
    (OpenSenderMemory ⟨fun _ => true, fun _ => none⟩ 0 ⟨none, 0, 0⟩ ("cam0")).fst = true ∧
    ∃ m, (OpenSenderMemory ⟨fun _ => true, fun _ => none⟩ 0
        ⟨none, 0, 0⟩ ("cam0")).snd.fst.senderMem = some m ∧
      m.mapName = some ("cam0" ++ "_map") :=
  (C5_open_named ⟨fun _ => true, fun _ => none⟩ 0 ⟨none, 0, 0⟩ ("cam0")).1 rfl

/-- Counterexample to claim C6 as stated: LockSenderMemory takes no
timeoutMs argument and reports no distinct timeout outcome. At these
concrete inputs, a failure of the underlying Lock on an open map (the case
that covers an internal wait timing out) and a call on a never-opened
handle return the identical null result, so timeout is not distinguishable
from other errors. -/
theorem C6_counterexample :
    (LockSenderMemory ⟨fun _ => true, fun _ => none⟩
        ⟨some ⟨7, some ("cam0_map")⟩, 1920, 1080⟩).fst
      = (LockSenderMemory ⟨fun _ => true, fun _ => none⟩ ⟨none, 0, 0⟩).fst ∧
    (LockSenderMemory ⟨fun _ => true, fun _ => none⟩
        ⟨some ⟨7, some ("cam0_map")⟩, 1920, 1080⟩).fst = none := by
  exact ⟨rfl, rfl⟩

/-- Claim C6 (amended): LockSenderMemory accepts no timeout parameter; its
only outcomes are the buffer on success and a single undifferentiated null
on every failure, whether the handle was never opened or the underlying
Lock failed, so no timeout outcome is reported distinctly. -/
theorem C6_lock_no_timeout_outcome (env : MemEnv) (s : Memoryshare) :
    (s.senderMem = none → (LockSenderMemory env s).fst = none) ∧
    (∀ m, s.senderMem = some m → env.lockBuf m.objId = none →
      (LockSenderMemory env s).fst = none) ∧
    (∀ m b, s.senderMem = some m → env.lockBuf m.objId = some b →
      (LockSenderMemory env s).fst = some b) := by
  refine ⟨?_, ?_, ?_⟩
  · intro h
    simp [LockSenderMemory, h]
  · intro m hm hl
    simp [LockSenderMemory, hm, hl]
  · intro m b hm hl
    simp [LockSenderMemory, hm, hl]

/-- Witness for the amended C6 at a concrete never-opened state. -/
theorem C6_witness :
    (LockSenderMemory ⟨fun _ => true, fun _ => none⟩ ⟨none, 3, 4⟩).fst = none :=
  (C6_lock_no_timeout_outcome ⟨fun _ => true, fun _ => none⟩ ⟨none, 3, 4⟩).1 rfl

/-- Claim C7: LockSenderMemory performs no width or height validation: its
result is unchanged under any change of the cached width and height, and it
never modifies the memoryshare state (no implicit resizing). -/
theorem C7_lock_no_size_checks (env : MemEnv) (mem : Option SpoutSharedMemory)
    (w h w2 h2 : Nat) :
    (LockSenderMemory env ⟨mem, w, h⟩).fst = (LockSenderMemory env ⟨mem, w2, h2⟩).fst ∧
    (LockSenderMemory env ⟨mem, w, h⟩).snd.fst = ⟨mem, w, h⟩ := by
  cases mem with
  | none => exact ⟨rfl, rfl⟩
  | some m => cases hl : env.lockBuf m.objId <;> simp [LockSenderMemory, hl]

/-- Claim C8: LockSenderMemory and UnlockSenderMemory are null-safe: with no
object held, Lock returns null having issued no calls and Unlock is a
no-op; when the underlying Lock returns null, the result is null with no
Unlock issued; and a non-null result arises only from a held object whose
Lock succeeded with that buffer. -/
theorem C8_lock_null_safe (env : MemEnv) (s : Memoryshare) :
    (s.senderMem = none →
      LockSenderMemory env s = (none, s, []) ∧ UnlockSenderMemory s = (s, [])) ∧
    (∀ m, s.senderMem = some m → env.lockBuf m.objId = none →
      LockSenderMemory env s = (none, s, [MemEvent.lockCall])) ∧
    (∀ b, (LockSenderMemory env s).fst = some b →
      ∃ m, s.senderMem = some m ∧ env.lockBuf m.objId = some b) := by
  refine ⟨?_, ?_, ?_⟩
  · intro h
    constructor
    · simp [LockSenderMemory, h]
    · simp [UnlockSenderMemory, h]
  · intro m hm hl
    simp [LockSenderMemory, hm, hl]
  · intro b hb
    cases hs : s.senderMem with
    | none => simp [LockSenderMemory, hs] at hb
    | some m =>
      cases hl : env.lockBuf m.objId with
      | none => simp [LockSenderMemory, hs, hl] at hb
      | some b2 =>
        simp [LockSenderMemory, hs, hl] at hb
        exact ⟨m, rfl, by rw [hl, hb]⟩

/-- Witness for C8 at the never-opened state. -/
theorem C8_witness :
    LockSenderMemory ⟨fun _ => true, fun _ => none⟩ ⟨none, 0, 0⟩ = (none, ⟨none, 0, 0⟩, []) ∧
    UnlockSenderMemory ⟨none, 0, 0⟩ = (⟨none, 0, 0⟩, []) :=
  (C8_lock_null_safe ⟨fun _ => true, fun _ => none⟩ ⟨none, 0, 0⟩).1 rfl

/-- Claim C9: the map name OpenSenderMemory opens is exactly the sender
name with the suffix appended, and no other open is issued. -/
theorem C9_map_name (env : MemEnv) (fresh : Nat) (s : Memoryshare) (sendername : String) :
    (OpenSenderMemory env fresh s sendername).snd.snd
      = [MemEvent.openMap (sendername ++ "_map")] :=
  rfl

/-- Claim C10: OpenSenderMemory allocates a fresh object only when senderMem
is null, reuses the held object (same identity) when one is present, and
never modifies the cached width and height. -/
theorem C10_no_realloc (env : MemEnv) (fresh : Nat) (s : Memoryshare) (sendername : String) :
    (∀ m, s.senderMem = some m →
      ∃ m2, (OpenSenderMemory env fresh s sendername).snd.fst.senderMem = some m2 ∧
        m2.objId = m.objId) ∧
    (s.senderMem = none →
      ∃ m2, (OpenSenderMemory env fresh s sendername).snd.fst.senderMem = some m2 ∧
        m2.objId = fresh) ∧
    (OpenSenderMemory env fresh s sendername).snd.fst.m_Width = s.m_Width ∧
    (OpenSenderMemory env fresh s sendername).snd.fst.m_Height = s.m_Height := by
  refine ⟨?_, ?_, rfl, rfl⟩
  · intro m hm
    cases hmaps : env.maps (sendername ++ "_map") <;>
      simp [OpenSenderMemory, SpoutSharedMemory.Open, hm, hmaps]
  · intro hm
    cases hmaps : env.maps (sendername ++ "_map") <;>
      simp [OpenSenderMemory, SpoutSharedMemory.Open, hm, hmaps, newSharedMemory]

/-- Witness for C10: an already-open state keeps its object identity. -/
theorem C10_witness :
    ∃ m2, (OpenSenderMemory ⟨fun _ => true, fun _ => none⟩ 5
        ⟨some ⟨3, none⟩, 10, 20⟩ ("cam0")).snd.fst.senderMem = some m2 ∧
      m2.objId = (⟨3, none⟩ : SpoutSharedMemory).objId :=
  (C10_no_realloc ⟨fun _ => true, fun _ => none⟩ 5
    ⟨some ⟨3, none⟩, 10, 20⟩ ("cam0")).1 ⟨3, none⟩ rfl

end Spout
